import Mathlib

/-!
Shallow embedding of the EHR quality-audit pipeline
(`validators.py`, `outlier_detector.py`, `quality_scorer.py`,
`ehr_quality_auditor.py`).

Numeric measurements and scores are modelled as rationals; Python dicts of
named measurements are modelled as association lists (a Python dict has
unique keys, which shows up as a `Nodup` hypothesis where it matters).
The fitted scikit-learn `IsolationForest` is external ML code, so its
per-row classification is abstracted as a `predict` parameter; the one
piece of its contract the pipeline depends on — `fit` raises on an empty
feature matrix — is modelled explicitly in `OutlierDetector.train`.
-/

/-- Modelled from the spec: `ValidationResult` is imported from `ehr_models`
by `validators.py`, `outlier_detector.py` and `quality_scorer.py` but is not
defined under `src/`; its fields follow the spec's Finding data model (field
path, validity flag, message, severity) and the keyword-argument constructor
calls in `validators.py` and `outlier_detector.py`. -/
structure ValidationResult where
  field_name : String
  is_valid : Bool
  error_message : String
  severity : String
deriving Repr, DecidableEq

/-- One EHR record, per the spec's Record data model (§3) and the use sites in
`quality_scorer.py`, `validators.py`, `outlier_detector.py` and
`test_ehr_auditor.py`: vital signs and lab results are dicts of named numeric
values, demographics is a dict whose values the audited code never inspects
(only key membership and emptiness are used, so it is carried as its key
list), and notes is an optional string. -/
structure EHRRecord where
  patient_id : String
  timestamp : Nat
  vital_signs : List (String × ℚ)
  medications : List String
  diagnosis_codes : List String
  lab_results : List (String × ℚ)
  demographics : List String
  notes : Option String
deriving Repr, DecidableEq

/-- Modelled from the spec: `QualityReport` is imported from `ehr_models` by
`quality_scorer.py` but is not defined under `src/`; its fields follow the
spec's Quality Report (§3) and the keyword-argument constructor call in
`QualityScorer.calculate_scores`. The generation timestamp (`datetime.now()`)
is threaded through as a `Nat` parameter `now`. -/
structure QualityReport where
  completeness_score : ℚ
  consistency_score : ℚ
  accuracy_score : ℚ
  validation_results : List ValidationResult
  timestamp : Nat
  record_count : Nat
deriving Repr, DecidableEq

/-- Python `dict.get(key, default)` on an association list. -/
def dictGet (m : List (String × ℚ)) (key : String) (default : ℚ) : ℚ :=
  match m.find? (fun p => p.1 == key) with
  | some p => p.2
  | none => default

/-- True iff Python `bool(notes)` is true: `None` and the empty string are
falsy. -/
def notesPresent (r : EHRRecord) : Bool :=
  match r.notes with
  | none => false
  | some s => !s.isEmpty

/-! ### Python regex matching

`validators.py` uses `re.match` with patterns anchored by `^...$`.  In Python,
`$` matches at the end of the string or just before a newline at the end of
the string, so `re.match(r'^P\d{6}$', "P123456\n")` succeeds.  `\d` and
`[A-Z]` are modelled as ASCII digits / ASCII uppercase letters. -/

/-- The character lists a `^core$` pattern may consume: the whole string, or,
when the string ends in a newline, also the string without that newline
(Python `$` semantics). -/
def dollarViews (l : List Char) : List (List Char) :=
  if l.getLast? == some '\n' then [l, l.dropLast] else [l]

/-- Python `re.match(r'^P\d{6}$', s) is not None`. -/
def pidCore (l : List Char) : Bool :=
  match l with
  | 'P' :: rest => rest.length == 6 && rest.all Char.isDigit
  | _ => false

def pidMatches (s : String) : Bool :=
  (dollarViews s.data).any pidCore

/-- Python `re.match(r'^[A-Z]\d{2}(\.\d+)?$', code) is not None`. -/
def icd10Core (l : List Char) : Bool :=
  match l with
  | c :: d1 :: d2 :: rest =>
    c.isUpper && d1.isDigit && d2.isDigit &&
      (match rest with
       | [] => true
       | '.' :: ds => !ds.isEmpty && ds.all Char.isDigit
       | _ => false)
  | _ => false

def icd10Matches (s : String) : Bool :=
  (dollarViews s.data).any icd10Core

/-! ### EHRValidator (`validators.py`) -/

/-- The fixed range table set up in `EHRValidator.__init__`. -/
def vitalSignsRanges : List (String × ℚ × ℚ) :=
  [("blood_pressure_systolic", 60, 200),
   ("blood_pressure_diastolic", 40, 130),
   ("heart_rate", 40, 200),
   ("temperature", 35, 42),
   ("respiratory_rate", 8, 40)]

/-- Lookup in the range table (`name in self.vital_signs_ranges`). -/
def rangeOf (name : String) : Option (ℚ × ℚ) :=
  (vitalSignsRanges.find? (fun p => p.1 == name)).map (fun p => p.2)

/-- `EHRValidator._validate_patient_id`. -/
def validatePatientId (patient_id : String) : List ValidationResult :=
  if pidMatches patient_id then []
  else [{ field_name := "patient_id", is_valid := false,
          error_message := "Patient ID must be in format P followed by 6 digits",
          severity := "high" }]

/-- `EHRValidator._validate_vital_signs`: iterate the record's vital-sign
items; names in the range table are checked against their inclusive range,
other names are skipped. -/
def validateVitalSigns (vital_signs : List (String × ℚ)) : List ValidationResult :=
  vital_signs.filterMap (fun nv =>
    match rangeOf nv.1 with
    | some lohi =>
      if lohi.1 ≤ nv.2 ∧ nv.2 ≤ lohi.2 then none
      else some { field_name := "vital_signs." ++ nv.1, is_valid := false,
                  error_message := nv.1 ++ " value is outside normal range",
                  severity := "medium" }
    | none => none)

/-- `EHRValidator._validate_demographics`: each of the required fields
age/gender/race must be a key of the demographics dict. -/
def validateDemographics (demographics : List String) : List ValidationResult :=
  ["age", "gender", "race"].filterMap (fun fld =>
    if fld ∈ demographics then none
    else some { field_name := "demographics." ++ fld, is_valid := false,
                error_message := "Missing required demographic field: " ++ fld,
                severity := "medium" })

/-- `EHRValidator._validate_diagnosis_codes`. -/
def validateDiagnosisCodes (codes : List String) : List ValidationResult :=
  codes.filterMap (fun code =>
    if icd10Matches code then none
    else some { field_name := "diagnosis_codes", is_valid := false,
                error_message := "Invalid ICD-10 code format: " ++ code,
                severity := "high" })

/-- `EHRValidator.validate_record`: the four rule groups, concatenated in
source order. -/
def validateRecord (r : EHRRecord) : List ValidationResult :=
  validatePatientId r.patient_id ++
  validateVitalSigns r.vital_signs ++
  validateDemographics r.demographics ++
  validateDiagnosisCodes r.diagnosis_codes

/-! ### OutlierDetector (`outlier_detector.py`) -/

/-- `OutlierDetector._extract_features`: per record the fixed-order feature
row (systolic BP, diastolic BP, heart rate, temperature, number of
medications, number of diagnosis codes), missing vitals defaulting to 0. -/
def extractFeatures (records : List EHRRecord) : List (List ℚ) :=
  records.map (fun r =>
    [dictGet r.vital_signs "blood_pressure_systolic" 0,
     dictGet r.vital_signs "blood_pressure_diastolic" 0,
     dictGet r.vital_signs "heart_rate" 0,
     dictGet r.vital_signs "temperature" 0,
     (r.medications.length : ℚ),
     (r.diagnosis_codes.length : ℚ)])

/-- `OutlierDetector.train`: builds the feature matrix and fits the
scikit-learn `IsolationForest` on it.  The fit itself is external library
code; the one behaviour of it the pipeline depends on is its input
contract: `fit` raises `ValueError` on a feature matrix with zero samples
(scikit-learn requires at least one sample), and succeeds on any non-empty
numeric matrix such as the one `_extract_features` builds. -/
def OutlierDetector.train (records : List EHRRecord) : Except String Unit :=
  if records.isEmpty then
    Except.error "IsolationForest.fit: found array with 0 samples"
  else Except.ok ()

/-- `OutlierDetector.detect_outliers`: the fitted forest's per-row
classification is abstracted as `predict`, returning one label per feature
row with `-1` marking an outlier, as `IsolationForest.predict` does; each
outlying row yields one `record_outlier` finding for the corresponding
record. -/
def detectOutliers (predict : List (List ℚ) → List Int)
    (records : List EHRRecord) : List ValidationResult :=
  ((predict (extractFeatures records)).zip records).filterMap (fun pr =>
    if pr.1 == -1 then
      some { field_name := "record_outlier", is_valid := false,
             error_message :=
               "Record " ++ pr.2.patient_id ++ " identified as potential outlier",
             severity := "medium" }
    else none)

/-! ### QualityScorer (`quality_scorer.py`) -/

/-- Number of truthy fields among the seven counted by
`QualityScorer._calculate_completeness` (`total_fields = 7`). -/
def fieldsPresent (r : EHRRecord) : Nat :=
  (if r.patient_id.isEmpty then 0 else 1) +
  (if r.vital_signs.isEmpty then 0 else 1) +
  (if r.medications.isEmpty then 0 else 1) +
  (if r.diagnosis_codes.isEmpty then 0 else 1) +
  (if r.lab_results.isEmpty then 0 else 1) +
  (if r.demographics.isEmpty then 0 else 1) +
  (if notesPresent r then 1 else 0)

/-- `QualityScorer._calculate_completeness`. -/
def calculateCompleteness (records : List EHRRecord) : ℚ :=
  if records.isEmpty then 0
  else ((records.map (fun r => (fieldsPresent r : ℚ) / 7)).sum / records.length) * 100

/-- `QualityScorer._is_record_consistent`: missing vitals default to 0 via
`dict.get`; the record is inconsistent when systolic ≤ diastolic, or when
medications are present while diagnosis codes are empty. -/
def isRecordConsistent (r : EHRRecord) : Bool :=
  if dictGet r.vital_signs "blood_pressure_systolic" 0 ≤
      dictGet r.vital_signs "blood_pressure_diastolic" 0 then false
  else if r.medications.length > 0 && r.diagnosis_codes.length == 0 then false
  else true

/-- `QualityScorer._calculate_consistency`. -/
def calculateConsistency (records : List EHRRecord) : ℚ :=
  if records.isEmpty then 0
  else ((records.countP (fun r => isRecordConsistent r) : ℚ) / records.length) * 100

/-- `QualityScorer._calculate_accuracy`. -/
def calculateAccuracy (validation_results : List ValidationResult) : ℚ :=
  if validation_results.isEmpty then 100
  else ((validation_results.countP (fun f => f.is_valid) : ℚ) /
          validation_results.length) * 100

/-- `QualityScorer.calculate_scores`; `now` stands for `datetime.now()`. -/
def calculateScores (now : Nat) (records : List EHRRecord)
    (validation_results : List ValidationResult) : QualityReport :=
  { completeness_score := calculateCompleteness records
    consistency_score := calculateConsistency records
    accuracy_score := calculateAccuracy validation_results
    validation_results := validation_results
    timestamp := now
    record_count := records.length }

/-! ### EHRQualityAuditor (`ehr_quality_auditor.py`) -/

/-- `EHRQualityAuditor.process_records`: train the detector on the batch
(propagating the fit error on a degenerate batch), validate each record in
batch order, append the outlier findings, and score. -/
def processRecords (predict : List (List ℚ) → List Int) (now : Nat)
    (records : List EHRRecord) : Except String QualityReport :=
  match OutlierDetector.train records with
  | Except.error e => Except.error e
  | Except.ok _ =>
    Except.ok (calculateScores now records
      (records.flatMap validateRecord ++ detectOutliers predict records))

/-- A `predict` that classifies every row as an inlier (no outliers);
used to instantiate the abstracted isolation forest on concrete batches. -/
def predictNone : List (List ℚ) → List Int :=
  fun rows => rows.map (fun _ => 1)

/-! ### Spec-side definitions and concrete records used to settle the claims -/

/-- The per-record consistency rule as the code actually implements it:
systolic strictly above diastolic (both defaulting to 0 when absent), and it
is not the case that medications are present while diagnosis codes are
empty. -/
def consistentAmended (r : EHRRecord) : Prop :=
  dictGet r.vital_signs "blood_pressure_diastolic" 0 <
    dictGet r.vital_signs "blood_pressure_systolic" 0 ∧
  ¬(r.medications ≠ [] ∧ r.diagnosis_codes = [])

instance (r : EHRRecord) : Decidable (consistentAmended r) := by
  unfold consistentAmended
  infer_instance

/-- Completeness contribution following the claim's words: fraction of the
six-element field set (vital signs, medications, diagnosis codes, lab
results, demographics, notes) that is populated, as a percentage. -/
def claimSixFieldCompleteness (r : EHRRecord) : ℚ :=
  100 * (([!r.vital_signs.isEmpty, !r.medications.isEmpty,
           !r.diagnosis_codes.isEmpty, !r.lab_results.isEmpty,
           !r.demographics.isEmpty, notesPresent r].count true : ℚ)) / 6

/-- The truthiness flags of the seven fields `_calculate_completeness`
actually counts (patient id plus the claim's six). -/
def presentFlags (r : EHRRecord) : List Bool :=
  [!r.patient_id.isEmpty, !r.vital_signs.isEmpty, !r.medications.isEmpty,
   !r.diagnosis_codes.isEmpty, !r.lab_results.isEmpty, !r.demographics.isEmpty,
   notesPresent r]

/-- The claim's reading of the pattern: letter `P` followed by exactly six
digits, with nothing after them. -/
def pidExact (s : String) : Bool := pidCore s.data

/-- In-range vital signs (the spec's single-record scenario values). -/
def goodVitals : List (String × ℚ) :=
  [("blood_pressure_systolic", 120), ("blood_pressure_diastolic", 80),
   ("heart_rate", 75), ("temperature", 37), ("respiratory_rate", 16)]

/-- The spec's two-layer scenario: diagnosis codes present, medications
empty, everything else valid and populated. -/
def recScenario : EHRRecord :=
  { patient_id := "P000001", timestamp := 0, vital_signs := goodVitals,
    medications := [], diagnosis_codes := ["E11.9"],
    lab_results := [("glucose", 100), ("cholesterol", 180)],
    demographics := ["age", "gender", "race"], notes := some "stable" }

/-- A record with an empty vital-signs mapping (and nothing else that could
fail a Scorer clause). -/
def recNoVitals : EHRRecord :=
  { patient_id := "P000002", timestamp := 0, vital_signs := [],
    medications := [], diagnosis_codes := [], lab_results := [],
    demographics := ["age", "gender", "race"], notes := none }

/-- A fully valid record populating everything except notes. -/
def recSix : EHRRecord :=
  { patient_id := "P123456", timestamp := 0, vital_signs := goodVitals,
    medications := ["metformin"], diagnosis_codes := ["E11.9"],
    lab_results := [("glucose", 100), ("cholesterol", 180)],
    demographics := ["age", "gender", "race"], notes := none }

/-- A record whose patient identifier fails the format rule. -/
def recBadId : EHRRecord :=
  { patient_id := "BAD", timestamp := 0, vital_signs := goodVitals,
    medications := ["metformin"], diagnosis_codes := ["E11.9"],
    lab_results := [("glucose", 100), ("cholesterol", 180)],
    demographics := ["age", "gender", "race"], notes := some "n" }

/-- A record whose patient identifier is `P123456` with a trailing
newline: not `P` followed by exactly six digits, yet accepted by
`re.match(r'^P\d{6}$', ...)`. -/
def recNewlineId : EHRRecord :=
  { patient_id := "P123456\n", timestamp := 0, vital_signs := goodVitals,
    medications := ["metformin"], diagnosis_codes := ["E11.9"],
    lab_results := [("glucose", 100), ("cholesterol", 180)],
    demographics := ["age", "gender", "race"], notes := some "n" }

/-- The finding `_validate_patient_id` emits on a malformed identifier. -/
def pidFinding : ValidationResult :=
  { field_name := "patient_id", is_valid := false,
    error_message := "Patient ID must be in format P followed by 6 digits",
    severity := "high" }

/-- The finding list `process_records` assembles for the batch `[recSix]`
under the all-inlier classifier. -/
def witnessFindings : List ValidationResult :=
  [recSix].flatMap validateRecord ++ detectOutliers predictNone [recSix]

/-- The report `process_records` produces for the batch `[recSix]` at
timestamp 5 under the all-inlier classifier. -/
def witnessReport : QualityReport := calculateScores 5 [recSix] witnessFindings

/-- A record whose heart rate lies above its allowed range. -/
def recHighHR : EHRRecord :=
  { patient_id := "P777777", timestamp := 0,
    vital_signs := [("blood_pressure_systolic", 120),
                    ("blood_pressure_diastolic", 80), ("heart_rate", 300),
                    ("temperature", 37), ("respiratory_rate", 16)],
    medications := ["metformin"], diagnosis_codes := ["E11.9"],
    lab_results := [("glucose", 100), ("cholesterol", 180)],
    demographics := ["age", "gender", "race"], notes := some "n" }

/-! ## Helper lemmas -/

theorem string_append_left_cancel {a b c : String} (h : a ++ b = a ++ c) : b = c := by
  apply String.ext
  have h2 : a.data ++ b.data = a.data ++ c.data := by
    have h3 := congrArg String.data h
    simpa [String.data_append] using h3
  exact List.append_cancel_left h2

theorem prefixed_ne (c : Char) (pre name t : String)
    (hpre : pre.data.head? = some c) (ht : t.data.head? ≠ some c) :
    pre ++ name ≠ t := by
  intro h
  apply ht
  rw [← h, String.data_append]
  cases hd : pre.data with
  | nil =>
    rw [hd] at hpre
    cases hpre
  | cons a tl =>
    rw [hd] at hpre
    simpa using hpre

theorem mem_validatePatientId {pid : String} {f : ValidationResult}
    (h : f ∈ validatePatientId pid) :
    f.is_valid = false ∧ f.severity = "high" ∧ f.field_name = "patient_id" := by
  unfold validatePatientId at h
  split at h
  · simp at h
  · simp at h
    subst h
    exact ⟨rfl, rfl, rfl⟩

theorem mem_validateVitalSigns {vs : List (String × ℚ)} {f : ValidationResult}
    (h : f ∈ validateVitalSigns vs) :
    f.is_valid = false ∧ f.severity = "medium" ∧
      ∃ nv ∈ vs, f.field_name = "vital_signs." ++ nv.1 := by
  unfold validateVitalSigns at h
  rcases List.mem_filterMap.1 h with ⟨nv, hmem, hf⟩
  cases hr : rangeOf nv.1 with
  | none =>
    rw [hr] at hf
    cases hf
  | some lohi =>
    rw [hr] at hf
    dsimp only at hf
    by_cases hc : lohi.1 ≤ nv.2 ∧ nv.2 ≤ lohi.2
    · rw [if_pos hc] at hf
      cases hf
    · rw [if_neg hc] at hf
      injection hf with hf2
      refine ⟨?_, ?_, nv, hmem, ?_⟩ <;> rw [← hf2]

theorem mem_validateDemographics {d : List String} {f : ValidationResult}
    (h : f ∈ validateDemographics d) :
    f.is_valid = false ∧ f.severity = "medium" ∧
      (f.field_name = "demographics.age" ∨ f.field_name = "demographics.gender" ∨
       f.field_name = "demographics.race") := by
  unfold validateDemographics at h
  rcases List.mem_filterMap.1 h with ⟨fld, hmem, hf⟩
  by_cases hc : fld ∈ d
  · rw [if_pos hc] at hf
    cases hf
  · rw [if_neg hc] at hf
    injection hf with hf2
    fin_cases hmem <;> rw [← hf2] <;> exact ⟨rfl, rfl, by simp⟩

theorem mem_validateDiagnosisCodes {codes : List String} {f : ValidationResult}
    (h : f ∈ validateDiagnosisCodes codes) :
    f.is_valid = false ∧ f.severity = "high" ∧ f.field_name = "diagnosis_codes" := by
  unfold validateDiagnosisCodes at h
  rcases List.mem_filterMap.1 h with ⟨code, hmem, hf⟩
  by_cases hc : icd10Matches code = true
  · rw [if_pos hc] at hf
    cases hf
  · rw [if_neg hc] at hf
    injection hf with hf2
    rw [← hf2]
    exact ⟨rfl, rfl, rfl⟩

theorem mem_detectOutliers {predict : List (List ℚ) → List Int}
    {records : List EHRRecord} {f : ValidationResult}
    (h : f ∈ detectOutliers predict records) :
    f.is_valid = false ∧ f.severity = "medium" ∧ f.field_name = "record_outlier" := by
  unfold detectOutliers at h
  rcases List.mem_filterMap.1 h with ⟨pr, hmem, hf⟩
  by_cases hc : (pr.1 == -1) = true
  · rw [if_pos hc] at hf
    injection hf with hf2
    rw [← hf2]
    exact ⟨rfl, rfl, rfl⟩
  · rw [if_neg hc] at hf
    cases hf

theorem mem_validateRecord {r : EHRRecord} {f : ValidationResult}
    (h : f ∈ validateRecord r) :
    f ∈ validatePatientId r.patient_id ∨ f ∈ validateVitalSigns r.vital_signs ∨
    f ∈ validateDemographics r.demographics ∨
    f ∈ validateDiagnosisCodes r.diagnosis_codes := by
  unfold validateRecord at h
  simp only [List.mem_append] at h
  tauto

theorem validateRecord_not_valid {r : EHRRecord} {f : ValidationResult}
    (h : f ∈ validateRecord r) : f.is_valid = false := by
  rcases mem_validateRecord h with h1 | h1 | h1 | h1
  · exact (mem_validatePatientId h1).1
  · exact (mem_validateVitalSigns h1).1
  · exact (mem_validateDemographics h1).1
  · exact (mem_validateDiagnosisCodes h1).1

theorem allFindings_not_valid {predict : List (List ℚ) → List Int}
    {records : List EHRRecord} {f : ValidationResult}
    (h : f ∈ records.flatMap validateRecord ++ detectOutliers predict records) :
    f.is_valid = false := by
  rcases List.mem_append.1 h with h1 | h1
  · rcases List.mem_flatMap.1 h1 with ⟨r, _, hr⟩
    exact validateRecord_not_valid hr
  · exact (mem_detectOutliers h1).1

theorem fieldsPresent_eq_count (r : EHRRecord) :
    fieldsPresent r = (presentFlags r).count true := by
  unfold fieldsPresent presentFlags
  generalize r.patient_id.isEmpty = b1
  generalize r.vital_signs.isEmpty = b2
  generalize r.medications.isEmpty = b3
  generalize r.diagnosis_codes.isEmpty = b4
  generalize r.lab_results.isEmpty = b5
  generalize r.demographics.isEmpty = b6
  generalize notesPresent r = b7
  cases b1 <;> cases b2 <;> cases b3 <;> cases b4 <;> cases b5 <;> cases b6 <;>
    cases b7 <;> rfl

/-! ## Claim theorems -/

/-- Claim C10: every finding constructed by `EHRValidator.validate_record`
and by `OutlierDetector.detect_outliers` has its validity flag false and its
severity equal to `"high"` or `"medium"`; severity `"low"` is never
emitted by any rule. -/
theorem C10_findings_invalid_severity :
    (∀ (r : EHRRecord) (f : ValidationResult), f ∈ validateRecord r →
      f.is_valid = false ∧ (f.severity = "high" ∨ f.severity = "medium") ∧
        f.severity ≠ "low") ∧
    (∀ (predict : List (List ℚ) → List Int) (records : List EHRRecord)
        (f : ValidationResult), f ∈ detectOutliers predict records →
      f.is_valid = false ∧ (f.severity = "high" ∨ f.severity = "medium") ∧
        f.severity ≠ "low") := by
  constructor
  · intro r f h
    rcases mem_validateRecord h with h1 | h1 | h1 | h1
    · rcases mem_validatePatientId h1 with ⟨hv, hs, -⟩
      exact ⟨hv, Or.inl hs, by rw [hs]; decide⟩
    · rcases mem_validateVitalSigns h1 with ⟨hv, hs, -⟩
      exact ⟨hv, Or.inr hs, by rw [hs]; decide⟩
    · rcases mem_validateDemographics h1 with ⟨hv, hs, -⟩
      exact ⟨hv, Or.inr hs, by rw [hs]; decide⟩
    · rcases mem_validateDiagnosisCodes h1 with ⟨hv, hs, -⟩
      exact ⟨hv, Or.inl hs, by rw [hs]; decide⟩
  · intro predict records f h
    rcases mem_detectOutliers h with ⟨hv, hs, -⟩
    exact ⟨hv, Or.inr hs, by rw [hs]; decide⟩

theorem C10_witness :
    pidFinding ∈ validateRecord recBadId ∧
    (pidFinding.is_valid = false ∧
      (pidFinding.severity = "high" ∨ pidFinding.severity = "medium") ∧
      pidFinding.severity ≠ "low") :=
  ⟨by decide, C10_findings_invalid_severity.1 recBadId pidFinding (by decide)⟩

/-- Claim C8: for every batch and finding list, the Scorer's accuracy score
equals the percentage of findings whose validity flag is true, and equals
exactly 100 when the finding list is empty. -/
theorem C8_accuracy_percentage (now : Nat) (records : List EHRRecord)
    (findings : List ValidationResult) :
    (calculateScores now records findings).accuracy_score =
      if findings = [] then 100
      else 100 * ((findings.filter (fun f => f.is_valid)).length : ℚ) /
        findings.length := by
  show calculateAccuracy findings = _
  unfold calculateAccuracy
  rcases eq_or_ne findings [] with he | he
  · subst he
    simp
  · rw [if_neg (fun h => he (List.isEmpty_iff.1 h)), if_neg he,
      List.countP_eq_length_filter]
    ring

/-- Claim C2 (code_bug): on the empty batch the Scorer alone would return the
claimed report (all-zero scores, accuracy 100, record count 0), but
`process_records` never reaches it: `OutlierDetector.train` fits the
isolation forest on an empty feature matrix, which raises, so the Auditor
raises instead of returning a Quality Report. -/
theorem C2_empty_batch_raises (predict : List (List ℚ) → List Int) (now : Nat) :
    processRecords predict now [] =
      Except.error "IsolationForest.fit: found array with 0 samples" ∧
    calculateScores now [] [] =
      { completeness_score := 0, consistency_score := 0, accuracy_score := 100,
        validation_results := [], timestamp := now, record_count := 0 } :=
  ⟨rfl, rfl⟩

/-- Claim C5 (code_bug): a batch below the minimum viable training size is
not tolerated: training the detector on the empty batch fails (the
isolation-forest fit raises on a zero-sample feature matrix) instead of
degrading gracefully. -/
theorem C5_train_raises_on_empty_batch :
    OutlierDetector.train ([] : List EHRRecord) =
      Except.error "IsolationForest.fit: found array with 0 samples" := rfl

/-- Claim C9: whenever `process_records` returns a Quality Report, its
finding list is the validation findings in record order (each record's
findings contiguous, records in batch order) followed by the outlier
findings in record order, and the report carries the record count and the
generation timestamp. -/
theorem C9_report_ordering (predict : List (List ℚ) → List Int) (now : Nat)
    (records : List EHRRecord) (report : QualityReport)
    (h : processRecords predict now records = Except.ok report) :
    report.validation_results =
      (records.map validateRecord).flatten ++ detectOutliers predict records ∧
    report.record_count = records.length ∧ report.timestamp = now := by
  unfold processRecords at h
  cases htr : OutlierDetector.train records with
  | error e =>
    rw [htr] at h
    cases h
  | ok u =>
    rw [htr] at h
    dsimp only at h
    injection h with h2
    rw [← h2]
    exact ⟨rfl, rfl, rfl⟩

theorem C9_witness :
    witnessReport.validation_results =
      ([recSix].map validateRecord).flatten ++ detectOutliers predictNone [recSix] ∧
    witnessReport.record_count = ([recSix] : List EHRRecord).length ∧
    witnessReport.timestamp = 5 :=
  C9_report_ordering predictNone 5 [recSix] witnessReport rfl

/-- Claim C1 counterexample: the spec scenario record (diagnosis codes
`["E11.9"]`, no medications, valid blood pressures) is judged consistent by
`_is_record_consistent` — the code tests the reverse implication,
medications present implies diagnosis codes present — and a record with no
vital signs at all is judged inconsistent (both pressures default to 0, and
0 ≤ 0 fails the strict comparison) instead of trivially passing. -/
theorem C1_counterexample :
    recScenario.diagnosis_codes = ["E11.9"] ∧ recScenario.medications = [] ∧
    isRecordConsistent recScenario = true ∧
    recNoVitals.vital_signs = [] ∧ isRecordConsistent recNoVitals = false := by
  decide

/-- Claim C1 (amended): a record is judged consistent iff its systolic BP
(0 when absent) strictly exceeds its diastolic BP (0 when absent) and it is
not the case that medications are present while diagnosis codes are empty;
batch consistency is the percentage of records satisfying this.  A record
with no vital signs fails the blood-pressure clause, and the scenario record
with diagnosis codes but no medications is judged consistent. -/
theorem C1_consistency_amended :
    (∀ r : EHRRecord, isRecordConsistent r = true ↔ consistentAmended r) ∧
    (∀ records : List EHRRecord, records ≠ [] →
      calculateConsistency records =
        ((records.countP (fun r => decide (consistentAmended r))) : ℚ) /
          records.length * 100) := by
  have hiff : ∀ r : EHRRecord, isRecordConsistent r = true ↔ consistentAmended r := by
    intro r
    unfold isRecordConsistent consistentAmended
    rcases le_or_lt (dictGet r.vital_signs "blood_pressure_systolic" 0)
        (dictGet r.vital_signs "blood_pressure_diastolic" 0) with hle | hlt
    · rw [if_pos hle]
      simp [not_lt.2 hle]
    · rw [if_neg (not_le.2 hlt)]
      by_cases hm : (decide (r.medications.length > 0) &&
          (r.diagnosis_codes.length == 0)) = true
      · rw [if_pos hm]
        simp only [Bool.and_eq_true, decide_eq_true_eq, beq_iff_eq,
          List.length_eq_zero] at hm
        constructor
        · intro hff
          simp at hff
        · rintro ⟨-, hno⟩
          exact absurd ⟨List.length_pos.1 hm.1, hm.2⟩ hno
      · rw [if_neg hm]
        simp only [Bool.and_eq_true, decide_eq_true_eq, beq_iff_eq,
          List.length_eq_zero] at hm
        constructor
        · intro _
          refine ⟨hlt, ?_⟩
          rintro ⟨hmne, hde⟩
          exact hm ⟨List.length_pos.2 hmne, hde⟩
        · intro _
          rfl
  refine ⟨hiff, ?_⟩
  intro records hne
  unfold calculateConsistency
  rw [if_neg (fun h => hne (List.isEmpty_iff.1 h))]
  have hcount : records.countP (fun r => isRecordConsistent r) =
      records.countP (fun r => decide (consistentAmended r)) := by
    apply List.countP_congr
    intro r _
    simp only [decide_eq_true_eq]
    exact hiff r
  rw [hcount]

theorem C1_witness :
    calculateConsistency [recScenario] =
      (([recScenario].countP (fun r => decide (consistentAmended r))) : ℚ) /
        ([recScenario] : List EHRRecord).length * 100 :=
  C1_consistency_amended.2 [recScenario] (List.cons_ne_nil _ _)

/-- Claim C3 counterexample: `_calculate_completeness` counts seven fields
including `patient_id` and divides by 7, so a record populating everything
except notes scores 600/7 per cent, not the claimed five-sixths 250/3. -/
theorem C3_counterexample :
    calculateCompleteness [recSix] = 600 / 7 ∧
    claimSixFieldCompleteness recSix = 250 / 3 ∧
    (600 / 7 : ℚ) ≠ 250 / 3 := by
  refine ⟨?_, ?_, by norm_num⟩
  · unfold calculateCompleteness
    rw [if_neg (by decide)]
    simp only [List.map_cons, List.map_nil, List.sum_cons, List.sum_nil,
      List.length_cons, List.length_nil]
    rw [show fieldsPresent recSix = 6 from by decide]
    norm_num
  · unfold claimSixFieldCompleteness
    rw [show ([!recSix.vital_signs.isEmpty, !recSix.medications.isEmpty,
        !recSix.diagnosis_codes.isEmpty, !recSix.lab_results.isEmpty,
        !recSix.demographics.isEmpty, notesPresent recSix].count true) = 5
      from by decide]
    norm_num

/-- Claim C3 (amended): a record's completeness contribution is the fraction
of the seven fields (patient identifier, vital signs, medications, diagnosis
codes, lab results, demographics, notes) that are populated — non-empty and
non-null — and batch completeness is the mean of this over all records
expressed as a percentage, 0 for the empty batch. -/
theorem C3_completeness_amended :
    (∀ records : List EHRRecord, records ≠ [] →
      calculateCompleteness records =
        ((records.map (fun r => ((presentFlags r).count true : ℚ) / 7)).sum) /
          records.length * 100) ∧
    calculateCompleteness [] = 0 := by
  constructor
  · intro records hne
    unfold calculateCompleteness
    rw [if_neg (fun h => hne (List.isEmpty_iff.1 h))]
    simp only [fieldsPresent_eq_count]
  · rfl

theorem C3_witness :
    calculateCompleteness [recSix] =
      (([recSix].map (fun r => ((presentFlags r).count true : ℚ) / 7)).sum) /
        ([recSix] : List EHRRecord).length * 100 :=
  C3_completeness_amended.1 [recSix] (List.cons_ne_nil _ _)

/-- Claim C4 counterexample: on a batch whose only record has a malformed
patient identifier, `process_records` reports accuracy 0, not 100 — with
findings present and every finding marked invalid, the fraction of valid
findings is zero. -/
theorem C4_counterexample :
    (processRecords predictNone 0 [recBadId]).map
        (fun report => report.accuracy_score) = Except.ok 0 := by
  have h1 : (processRecords predictNone 0 [recBadId]).map
      (fun report => report.accuracy_score) =
      Except.ok (calculateAccuracy ([recBadId].flatMap validateRecord ++
        detectOutliers predictNone [recBadId])) := rfl
  rw [h1]
  rw [show [recBadId].flatMap validateRecord ++
      detectOutliers predictNone [recBadId] = [pidFinding] from by decide]
  unfold calculateAccuracy
  rw [if_neg (by decide),
    show List.countP (fun f => f.is_valid) [pidFinding] = 0 from by decide]
  norm_num

/-- Claim C4 (amended): because the Validator and the OutlierDetector only
ever emit findings marked invalid, the accuracy reported by
`process_records` is 100 exactly when the report carries no findings, and 0
whenever it carries any finding (it would differ only if some rule elsewhere
emitted a finding marked valid, which none does). -/
theorem C4_accuracy_collapses (predict : List (List ℚ) → List Int) (now : Nat)
    (records : List EHRRecord) (report : QualityReport)
    (h : processRecords predict now records = Except.ok report) :
    (report.validation_results = [] → report.accuracy_score = 100) ∧
    (report.validation_results ≠ [] → report.accuracy_score = 0) := by
  unfold processRecords at h
  cases htr : OutlierDetector.train records with
  | error e =>
    rw [htr] at h
    cases h
  | ok u =>
    rw [htr] at h
    dsimp only at h
    injection h with h2
    subst h2
    constructor
    · intro he
      show calculateAccuracy
        (records.flatMap validateRecord ++ detectOutliers predict records) = 100
      rw [show records.flatMap validateRecord ++ detectOutliers predict records
          = [] from he]
      rfl
    · intro hne
      have hne2 : records.flatMap validateRecord ++
          detectOutliers predict records ≠ [] := hne
      show calculateAccuracy
        (records.flatMap validateRecord ++ detectOutliers predict records) = 0
      have hno : (records.flatMap validateRecord ++
          detectOutliers predict records).countP (fun f => f.is_valid) = 0 :=
        List.countP_eq_zero.2 (fun f hf => by simp [allFindings_not_valid hf])
      unfold calculateAccuracy
      rw [if_neg (fun hemp => hne2 (List.isEmpty_iff.1 hemp)), hno]
      simp

theorem C4_witness :
    (calculateScores 0 [recBadId]
        ([recBadId].flatMap validateRecord ++
          detectOutliers predictNone [recBadId])).accuracy_score = 0 :=
  (C4_accuracy_collapses predictNone 0 [recBadId] _ rfl).2 (by decide)

theorem countP_validateVitalSigns_absent (vs : List (String × ℚ)) (name : String)
    (habs : name ∉ vs.map Prod.fst) :
    (validateVitalSigns vs).countP
      (fun f => f.field_name == "vital_signs." ++ name) = 0 := by
  apply List.countP_eq_zero.2
  intro f hf hpf
  rcases mem_validateVitalSigns hf with ⟨-, -, nv, hnv, hname⟩
  simp only [beq_iff_eq] at hpf
  have heq : nv.1 = name := string_append_left_cancel (hname.symm.trans hpf)
  apply habs
  rw [← heq]
  exact List.mem_map_of_mem Prod.fst hnv

theorem validateVitalSigns_cons (nv : String × ℚ) (tl : List (String × ℚ)) :
    validateVitalSigns (nv :: tl) =
      (match rangeOf nv.1 with
       | some lohi =>
         if lohi.1 ≤ nv.2 ∧ nv.2 ≤ lohi.2 then validateVitalSigns tl
         else { field_name := "vital_signs." ++ nv.1, is_valid := false,
                error_message := nv.1 ++ " value is outside normal range",
                severity := "medium" } :: validateVitalSigns tl
       | none => validateVitalSigns tl) := by
  cases hro : rangeOf nv.1 with
  | none =>
    show (nv :: tl).filterMap _ = _
    rw [List.filterMap_cons, hro]
    rfl
  | some lohi =>
    show (nv :: tl).filterMap _ = _
    rw [List.filterMap_cons, hro]
    dsimp only
    by_cases hc : lohi.1 ≤ nv.2 ∧ nv.2 ≤ lohi.2
    · rw [if_pos hc, if_pos hc]
      rfl
    · rw [if_neg hc, if_neg hc]
      rfl

theorem countP_validateVitalSigns_name (name : String) (v : ℚ) (lo hi : ℚ)
    (hr : rangeOf name = some (lo, hi)) :
    ∀ vs : List (String × ℚ), (vs.map Prod.fst).Nodup → (name, v) ∈ vs →
    (validateVitalSigns vs).countP
        (fun f => f.field_name == "vital_signs." ++ name) =
      if lo ≤ v ∧ v ≤ hi then 0 else 1 := by
  intro vs
  induction vs with
  | nil =>
    intro _ hmem
    cases hmem
  | cons head tl ih =>
    intro hnodup hmem
    rw [List.map_cons, List.nodup_cons] at hnodup
    rw [validateVitalSigns_cons]
    rcases List.mem_cons.1 hmem with heq | hmem2
    · have h1 : head.1 = name := by rw [← heq]
      have h2 : head.2 = v := by rw [← heq]
      rw [h1, h2, hr]
      dsimp only
      by_cases hc : lo ≤ v ∧ v ≤ hi
      · rw [if_pos hc, if_pos hc]
        exact countP_validateVitalSigns_absent tl name (h1 ▸ hnodup.1)
      · rw [if_neg hc, if_neg hc]
        rw [List.countP_cons_of_pos _ _ (by simp),
          countP_validateVitalSigns_absent tl name (h1 ▸ hnodup.1)]
    · have hne : head.1 ≠ name := by
        intro hh
        apply hnodup.1
        rw [hh]
        exact List.mem_map_of_mem Prod.fst hmem2
      have htail := ih hnodup.2 hmem2
      cases hro : rangeOf head.1 with
      | none => exact htail
      | some lohi =>
        dsimp only
        by_cases hc : lohi.1 ≤ head.2 ∧ head.2 ≤ lohi.2
        · rw [if_pos hc]
          exact htail
        · rw [if_neg hc]
          rw [List.countP_cons_of_neg, htail]
          simp only [Bool.not_eq_true, beq_eq_false_iff_ne, ne_eq]
          intro hcontra
          exact hne (string_append_left_cancel hcontra)

theorem countP_nonvital_zero (r : EHRRecord) (name : String) :
    (validatePatientId r.patient_id).countP
        (fun f => f.field_name == "vital_signs." ++ name) = 0 ∧
    (validateDemographics r.demographics).countP
        (fun f => f.field_name == "vital_signs." ++ name) = 0 ∧
    (validateDiagnosisCodes r.diagnosis_codes).countP
        (fun f => f.field_name == "vital_signs." ++ name) = 0 := by
  refine ⟨?_, ?_, ?_⟩ <;>
    apply List.countP_eq_zero.2 <;>
    intro f hf hpf <;>
    simp only [beq_iff_eq] at hpf
  · rcases mem_validatePatientId hf with ⟨-, -, h3⟩
    exact prefixed_ne 'v' "vital_signs." name "patient_id" (by decide) (by decide)
      (hpf.symm.trans h3)
  · rcases mem_validateDemographics hf with ⟨-, -, h3 | h3 | h3⟩
    · exact prefixed_ne 'v' "vital_signs." name "demographics.age" (by decide)
        (by decide) (hpf.symm.trans h3)
    · exact prefixed_ne 'v' "vital_signs." name "demographics.gender" (by decide)
        (by decide) (hpf.symm.trans h3)
    · exact prefixed_ne 'v' "vital_signs." name "demographics.race" (by decide)
        (by decide) (hpf.symm.trans h3)
  · rcases mem_validateDiagnosisCodes hf with ⟨-, -, h3⟩
    exact prefixed_ne 'v' "vital_signs." name "diagnosis_codes" (by decide)
      (by decide) (hpf.symm.trans h3)

theorem countP_patient_id_groups (r : EHRRecord) (p : ValidationResult → Bool)
    (hp : ∀ f, p f = true → f.field_name = "patient_id")
    (hpid : p pidFinding = true) :
    (validateRecord r).countP p = if pidMatches r.patient_id then 0 else 1 := by
  have hv : (validateVitalSigns r.vital_signs).countP p = 0 := by
    apply List.countP_eq_zero.2
    intro f hf hpf
    rcases mem_validateVitalSigns hf with ⟨-, -, nv, -, hname⟩
    exact prefixed_ne 'v' "vital_signs." nv.1 "patient_id" (by decide) (by decide)
      (hname.symm.trans (hp f hpf))
  have hd : (validateDemographics r.demographics).countP p = 0 := by
    apply List.countP_eq_zero.2
    intro f hf hpf
    rcases mem_validateDemographics hf with ⟨-, -, h3 | h3 | h3⟩ <;>
      exact absurd ((hp f hpf).symm.trans h3) (by decide)
  have hg : (validateDiagnosisCodes r.diagnosis_codes).countP p = 0 := by
    apply List.countP_eq_zero.2
    intro f hf hpf
    rcases mem_validateDiagnosisCodes hf with ⟨-, -, h3⟩
    exact absurd ((hp f hpf).symm.trans h3) (by decide)
  have hpidc : (validatePatientId r.patient_id).countP p =
      if pidMatches r.patient_id then 0 else 1 := by
    unfold validatePatientId
    by_cases hm : pidMatches r.patient_id = true
    · rw [if_pos hm, if_pos hm]
      rfl
    · rw [if_neg hm, if_neg hm]
      show List.countP p [pidFinding] = 1
      rw [List.countP_cons_of_pos _ _ hpid]
      rfl
  unfold validateRecord
  rw [List.countP_append, List.countP_append, List.countP_append,
    hv, hd, hg, hpidc]
  simp

/-- Claim C6 counterexample: the identifier `"P123456\n"` is not the letter
P followed by exactly six digits, yet `re.match(r'^P\d{6}$', ...)` accepts
it — Python's `$` also matches just before a trailing newline — so
`validate_record` produces no `patient_id` finding for such a record. -/
theorem C6_counterexample :
    pidExact "P123456\n" = false ∧
    (validateRecord recNewlineId).countP
      (fun f => f.field_name == "patient_id") = 0 := by
  exact ⟨by decide, by decide⟩

/-- Claim C6 (amended): for every record whose patient identifier is not
accepted by `re.match(r'^P\d{6}$', ...)` — the letter P followed by exactly
six digits, optionally followed by a single trailing newline — exactly one
finding with field `patient_id` is produced, it has severity high and is
marked invalid, and this is independent of all other fields; for every
record whose identifier is accepted, no `patient_id` finding is produced. -/
theorem C6_patient_id_rule (r : EHRRecord) :
    (validateRecord r).countP (fun f => f.field_name == "patient_id") =
      (if pidMatches r.patient_id then 0 else 1) ∧
    (validateRecord r).countP (fun f => f.field_name == "patient_id" &&
        f.severity == "high" && !f.is_valid) =
      (if pidMatches r.patient_id then 0 else 1) := by
  constructor
  · apply countP_patient_id_groups r _ _ (by decide)
    intro f hf
    simpa [beq_iff_eq] using hf
  · apply countP_patient_id_groups r _ _ (by decide)
    intro f hf
    simp only [Bool.and_eq_true, beq_iff_eq] at hf
    exact hf.1.1

/-- Claim C7: for every vital-sign name in the Validator's fixed range table
that is present in the record's vital signs, `validate_record` emits exactly
one finding with field `vital_signs.<name>` iff the value lies outside the
inclusive range, none otherwise (first conjunct); vital signs absent from
the record produce no finding at all — silently skipped, not flagged missing
(second conjunct); and every finding at a `vital_signs.` field has severity
medium and is marked invalid (third conjunct). -/
theorem C7_vital_sign_ranges :
    (∀ (r : EHRRecord) (name : String) (v lo hi : ℚ),
        (r.vital_signs.map Prod.fst).Nodup → (name, v) ∈ r.vital_signs →
        rangeOf name = some (lo, hi) →
        (validateRecord r).countP
            (fun f => f.field_name == "vital_signs." ++ name) =
          if lo ≤ v ∧ v ≤ hi then 0 else 1) ∧
    (∀ (r : EHRRecord) (name : String), name ∉ r.vital_signs.map Prod.fst →
        (validateRecord r).countP
          (fun f => f.field_name == "vital_signs." ++ name) = 0) ∧
    (∀ (r : EHRRecord) (f : ValidationResult), f ∈ validateRecord r →
        ∀ name : String, f.field_name = "vital_signs." ++ name →
        f.severity = "medium" ∧ f.is_valid = false) := by
  refine ⟨?_, ?_, ?_⟩
  · intro r name v lo hi hnodup hmem hr
    unfold validateRecord
    rw [List.countP_append, List.countP_append, List.countP_append]
    rcases countP_nonvital_zero r name with ⟨h1, h2, h3⟩
    rw [h1, h2, h3,
      countP_validateVitalSigns_name name v lo hi hr r.vital_signs hnodup hmem]
    simp
  · intro r name habs
    unfold validateRecord
    rw [List.countP_append, List.countP_append, List.countP_append]
    rcases countP_nonvital_zero r name with ⟨h1, h2, h3⟩
    rw [h1, h2, h3, countP_validateVitalSigns_absent r.vital_signs name habs]
  · intro r f hf name hname
    rcases mem_validateRecord hf with h1 | h1 | h1 | h1
    · rcases mem_validatePatientId h1 with ⟨-, -, h3⟩
      exact absurd (hname.symm.trans h3)
        (prefixed_ne 'v' "vital_signs." name "patient_id" (by decide) (by decide))
    · rcases mem_validateVitalSigns h1 with ⟨hv, hs, -⟩
      exact ⟨hs, hv⟩
    · rcases mem_validateDemographics h1 with ⟨-, -, h3 | h3 | h3⟩
      · exact absurd (hname.symm.trans h3)
          (prefixed_ne 'v' "vital_signs." name "demographics.age" (by decide)
            (by decide))
      · exact absurd (hname.symm.trans h3)
          (prefixed_ne 'v' "vital_signs." name "demographics.gender" (by decide)
            (by decide))
      · exact absurd (hname.symm.trans h3)
          (prefixed_ne 'v' "vital_signs." name "demographics.race" (by decide)
            (by decide))
    · rcases mem_validateDiagnosisCodes h1 with ⟨-, -, h3⟩
      exact absurd (hname.symm.trans h3)
        (prefixed_ne 'v' "vital_signs." name "diagnosis_codes" (by decide)
          (by decide))

theorem C7_witness :
    (validateRecord recHighHR).countP
        (fun f => f.field_name == "vital_signs." ++ "heart_rate") =
      if (40 : ℚ) ≤ 300 ∧ (300 : ℚ) ≤ 200 then 0 else 1 :=
  C7_vital_sign_ranges.1 recHighHR "heart_rate" 300 40 200 (by decide)
    (by decide) (by decide)
